import Mathlib

/-!
# openage engine bootstrap and teardown (`src/init.cpp`)

A shallow embedding of `openage::init` and `openage::destroy`.

Both functions are straight-line orchestration code over external
collaborators (SDL, SDL_image, GLEW, OpenGL, the font, frame-counter, directory,
CSV and audio classes).  The embedding makes every collaborator's answer an
explicit input (`Outcomes`), threads the process-wide globals as an explicit
`State`, records every call in source order together with the line of
`init.cpp` on which it stands (`Event`), and returns the thrown `util::Error`
through `Except`.
-/

namespace openage

/-! ## Data model -/

/-- Raw pointers (`SDL_Window *`, `SDL_GLContext`, `Font *`, ...) as addresses. -/
abbrev Ptr := Nat

/-- The null pointer. -/
def nullptr : Ptr := 0

/-- A thrown `util::Error`, carrying its formatted message. -/
structure Error where
  msg : String
deriving DecidableEq, Repr

deriving instance DecidableEq for Except

/-- Constant `SDL_INIT_AUDIO` of `SDL.h`. -/
def SDL_INIT_AUDIO : Nat := 0x10

/-- Constant `SDL_INIT_VIDEO` of `SDL.h`. -/
def SDL_INIT_VIDEO : Nat := 0x20

/-- Constant `SDL_WINDOW_OPENGL` of `SDL_video.h`. -/
def SDL_WINDOW_OPENGL : Nat := 0x2

/-- Constant `SDL_WINDOW_RESIZABLE` of `SDL_video.h`. -/
def SDL_WINDOW_RESIZABLE : Nat := 0x20

/-- Constant `SDL_WINDOW_MAXIMIZED` of `SDL_video.h`. -/
def SDL_WINDOW_MAXIMIZED : Nat := 0x80

/-- Constant `SDL_WINDOWPOS_CENTERED` of `SDL_video.h`. -/
def SDL_WINDOWPOS_CENTERED : Nat := 0x2FFF0000

/-- Constant `IMG_INIT_JPG` of `SDL_image.h`. -/
def IMG_INIT_JPG : Int := 0x1

/-- Constant `IMG_INIT_PNG` of `SDL_image.h`. -/
def IMG_INIT_PNG : Int := 0x2

/-- Constant `GLEW_OK` of `glew.h`. -/
def GLEW_OK : Nat := 0

/-- Constant `AUDIO_S16LSB` of `SDL_audio.h`. -/
def AUDIO_S16LSB : Nat := 0x8010

/-- The `SDL_GLattr` values `init` sets. -/
inductive SDL_GLattr
  | SDL_GL_CONTEXT_MAJOR_VERSION
  | SDL_GL_CONTEXT_MINOR_VERSION
  | SDL_GL_ACCELERATED_VISUAL
  | SDL_GL_DOUBLEBUFFER
  | SDL_GL_DEPTH_SIZE
deriving DecidableEq, Repr

/-- The OpenGL enumerants `init` passes. -/
inductive GLenum
  | GL_MAX_TEXTURE_SIZE
  | GL_BLEND
  | GL_DEPTH_TEST
  | GL_SRC_ALPHA
  | GL_ONE_MINUS_SRC_ALPHA
deriving DecidableEq, Repr

/-- Callback function pointers: the three built-in handlers `init` registers,
and any other function a caller may have registered before. -/
inductive Handler
  | handle_window_resize
  | input_handler
  | draw_hud
  | other (id : Nat)
deriving DecidableEq, Repr

/-- The three process-wide callback vectors of `callbacks.h`. -/
inductive CallbackList
  | on_resize
  | on_input
  | on_drawhud
deriving DecidableEq, Repr

/-- Modelled from the spec: `gamedata/sound_file.h` is not in src; a row of the
sound index is a sound-file descriptor, a path plus metadata. -/
structure sound_file where
  path : String
  metadata : List String
deriving DecidableEq, Repr

/-- Modelled from the spec: `util/dir.h` is not in src; a directory is its base
path, and the manifest is read at `<assetRoot>/age/assets/sound_list.docx`. -/
structure Dir where
  basedir : String
deriving DecidableEq, Repr

/-- Modelled from the spec: `util::Dir::append`, the sub-directory below a
directory. -/
def Dir.append (d : Dir) (suffix : String) : Dir :=
  ⟨d.basedir ++ "/" ++ suffix⟩

/-- Modelled from the spec: `util::Dir::join`, the path of a file in a
directory. -/
def Dir.join (d : Dir) (fname : String) : String :=
  d.basedir ++ "/" ++ fname

/-- Every call `init` and `destroy` make on a collaborator, with its arguments.
`delete_AudioManager` is the one release in the alphabet that neither of them
makes. -/
inductive Call
  | time
  | srand (seed : Int)
  | SDL_Init (flags : Nat)
  | SDL_GetError
  | SDL_GL_SetAttribute (attr : SDL_GLattr) (value : Int)
  | SDL_CreateWindow (title : String) (x y : Nat) (w h : Int) (flags : Nat)
  | IMG_Init (flags : Int)
  | IMG_GetError
  | SDL_GL_CreateContext (window : Ptr)
  | glewInit
  | glGetIntegerv (pname : GLenum)
  | log_dbg (msg : String)
  | SDL_GL_SetSwapInterval (interval : Int)
  | glEnable (cap : GLenum)
  | glDisable (cap : GLenum)
  | glBlendFunc (sfactor dfactor : GLenum)
  | new_Font (family style : String) (size : Nat)
  | new_FrameCounter
  | push_back (list : CallbackList) (h : Handler)
  | get_devices
  | Dir_append (d : Dir) (suffix : String)
  | Dir_join (d : Dir) (fname : String)
  | read_csv_file (fname : String)
  | new_AudioManager (freq format channels buffer_size : Nat)
  | load_resources (asset_dir : Dir) (sound_files : List sound_file)
  | SDL_GL_DeleteContext (context : Ptr)
  | SDL_DestroyWindow (window : Ptr)
  | delete_FrameCounter (p : Ptr)
  | delete_Font (p : Ptr)
  | delete_AudioManager (p : Ptr)
  | IMG_Quit
  | SDL_Quit
deriving DecidableEq, Repr

/-- One entry of the call trace: the line of `init.cpp` and the call made
there. -/
structure Event where
  line : Nat
  call : Call
deriving DecidableEq, Repr

/-- The process-wide engine state `init` and `destroy` touch: the globals of
`engine.h`, `font.h` and `callbacks.h`. -/
structure State where
  window : Ptr
  glcontext : Ptr
  dejavuserif20 : Ptr
  fpscounter : Ptr
  audio_manager : Ptr
  window_size_x : Int
  window_size_y : Int
  on_resize : List Handler
  on_input : List Handler
  on_drawhud : List Handler
deriving DecidableEq, Repr

/-- What the collaborators answer during one run of `init`.  The `*_error`
texts are what `SDL_GetError()` or `IMG_GetError()` report after the respective
call and `glewGetErrorString` is GLEW's text for the loader's status; `init`
reads the first three of them.  `new_Font`, `read_csv_file` and
`load_resources` either succeed or throw. -/
structure Outcomes where
  time : Int
  SDL_Init : Int
  SDL_Init_error : String
  SDL_CreateWindow : Ptr
  SDL_CreateWindow_error : String
  IMG_Init : Int
  IMG_Init_error : String
  SDL_GL_CreateContext : Ptr
  SDL_GL_CreateContext_error : String
  glewInit : Nat
  glewGetErrorString : String
  GLEW_VERSION_2_1 : Bool
  max_texture_size : Int
  new_Font : Except Error Ptr
  new_FrameCounter : Ptr
  get_devices : List String
  read_csv_file : Except Error (List sound_file)
  new_AudioManager : Ptr
  load_resources : Except Error Unit

/-- What a run leaves behind: the value returned or the error thrown, the
process-wide state, and the calls made, oldest first. -/
structure Result where
  result : Except Error Unit
  state : State
  trace : List Event

/-! ## `openage::init` -/

/-- The function `void init(util::Dir &data_dir, const char *windowtitle)`.  The
seed handed to `srand` is `time(NULL)` converted to `unsigned int`. -/
def init (o : Outcomes) (s : State) (data_dir : Dir) (windowtitle : String) : Result :=
  let t : List Event := [⟨28, .time⟩, ⟨28, .srand (o.time % 2 ^ 32)⟩,
    ⟨30, .SDL_Init ( SDL_INIT_VIDEO ||| SDL_INIT_AUDIO)⟩]
  if o.SDL_Init < 0 then
    ⟨.error ⟨"SDL initialization: " ++ o.SDL_Init_error⟩, s, t ++ [⟨31, .SDL_GetError⟩]⟩
  else
  let t := t ++ [⟨34, .SDL_GL_SetAttribute .SDL_GL_CONTEXT_MAJOR_VERSION 2⟩,
    ⟨35, .SDL_GL_SetAttribute .SDL_GL_CONTEXT_MINOR_VERSION 1⟩,
    ⟨36, .SDL_GL_SetAttribute .SDL_GL_ACCELERATED_VISUAL 1⟩,
    ⟨37, .SDL_GL_SetAttribute .SDL_GL_DOUBLEBUFFER 1⟩,
    ⟨38, .SDL_GL_SetAttribute .SDL_GL_DEPTH_SIZE 24⟩]
  let window_flags := SDL_WINDOW_OPENGL ||| SDL_WINDOW_RESIZABLE ||| SDL_WINDOW_MAXIMIZED
  let t := t ++ [⟨41, .SDL_CreateWindow windowtitle SDL_WINDOWPOS_CENTERED
    SDL_WINDOWPOS_CENTERED s.window_size_x s.window_size_y window_flags⟩]
  let s := { s with window := o.SDL_CreateWindow }
  if s.window = nullptr then
    ⟨.error ⟨"SDL window creation: " ++ o.SDL_CreateWindow_error⟩, s,
      t ++ [⟨44, .SDL_GetError⟩]⟩
  else
  let wanted_image_formats := IMG_INIT_PNG
  let t := t ++ [⟨50, .IMG_Init wanted_image_formats⟩]
  let sdlimg_inited := o.IMG_Init
  if Int.land sdlimg_inited wanted_image_formats ≠ wanted_image_formats then
    ⟨.error ⟨"Failed to init PNG support: " ++ o.IMG_Init_error⟩, s,
      t ++ [⟨52, .IMG_GetError⟩]⟩
  else
  let t := t ++ [⟨55, .SDL_GL_CreateContext s.window⟩]
  let s := { s with glcontext := o.SDL_GL_CreateContext }
  if s.glcontext = nullptr then
    ⟨.error ⟨"Failed to create OpenGL context!"⟩, s, t⟩
  else
  let t := t ++ [⟨62, .glewInit⟩]
  let glew_state := o.glewInit
  if glew_state ≠ GLEW_OK then
    ⟨.error ⟨"GLEW initialization failed"⟩, s, t⟩
  else
  if !o.GLEW_VERSION_2_1 then
    ⟨.error ⟨"OpenGL 2.1 not available"⟩, s, t⟩
  else
  let t := t ++ [⟨75, .glGetIntegerv .GL_MAX_TEXTURE_SIZE⟩]
  let max_texture_size := o.max_texture_size
  let t := t ++ [⟨76, .log_dbg ("Maximum supported texture size: " ++ toString max_texture_size)⟩]
  if max_texture_size < 1024 then
    ⟨.error ⟨"Maximum supported texture size too small: " ++ toString max_texture_size⟩, s, t⟩
  else
  let t := t ++ [⟨82, .SDL_GL_SetSwapInterval 1⟩, ⟨85, .glEnable .GL_BLEND⟩,
    ⟨89, .glDisable .GL_DEPTH_TEST⟩, ⟨91, .glBlendFunc .GL_SRC_ALPHA .GL_ONE_MINUS_SRC_ALPHA⟩]
  let t := t ++ [⟨93, .new_Font "DejaVu Serif" "Book" 20⟩]
  match o.new_Font with
  | .error e => ⟨.error e, s, t⟩
  | .ok font =>
  let s := { s with dejavuserif20 := font }
  let t := t ++ [⟨96, .new_FrameCounter⟩]
  let s := { s with fpscounter := o.new_FrameCounter }
  let t := t ++ [⟨98, .push_back .on_resize .handle_window_resize⟩]
  let s := { s with on_resize := s.on_resize ++ [Handler.handle_window_resize] }
  let t := t ++ [⟨99, .push_back .on_input .input_handler⟩]
  let s := { s with on_input := s.on_input ++ [Handler.input_handler] }
  let t := t ++ [⟨100, .push_back .on_drawhud .draw_hud⟩]
  let s := { s with on_drawhud := s.on_drawhud ++ [Handler.draw_hud] }
  let t := t ++ [⟨103, .get_devices⟩]
  let devices := o.get_devices
  if devices.isEmpty then
    ⟨.error ⟨"No audio devices found"⟩, s, t⟩
  else
  let t := t ++ [⟨108, .Dir_append data_dir "age/assets"⟩]
  let asset_dir := data_dir.append "age/assets"
  let t := t ++ [⟨109, .Dir_join asset_dir "sound_list.docx"⟩]
  let sound_index_file := asset_dir.join "sound_list.docx"
  let t := t ++ [⟨110, .read_csv_file sound_index_file⟩]
  match o.read_csv_file with
  | .error e => ⟨.error e, s, t⟩
  | .ok sound_files =>
  let t := t ++ [⟨112, .new_AudioManager 48000 AUDIO_S16LSB 2 4096⟩]
  let s := { s with audio_manager := o.new_AudioManager }
  let t := t ++ [⟨113, .load_resources asset_dir sound_files⟩]
  match o.load_resources with
  | .error e => ⟨.error e, s, t⟩
  | .ok _ => ⟨.ok (), s, t⟩

/-! ## `openage::destroy` -/

/-- The function `void destroy()`: six release calls on the globals; the function has no
`throw` and assigns no global. -/
def destroy (s : State) : Result :=
  ⟨.ok (), s,
    [⟨122, .SDL_GL_DeleteContext s.glcontext⟩,
     ⟨123, .SDL_DestroyWindow s.window⟩,
     ⟨124, .delete_FrameCounter s.fpscounter⟩,
     ⟨125, .delete_Font s.dejavuserif20⟩,
     ⟨126, .IMG_Quit⟩,
     ⟨127, .SDL_Quit⟩]⟩

/-! ## Steps of the bootstrap sequence -/

/-- The steps of `init` in source order.  The loader call and the GL 2.1 test
are two steps, each with its own `throw`. -/
inductive Step
  | seed
  | sdlInit
  | glAttributes
  | window
  | imgInit
  | glContext
  | glewInit
  | glVersion
  | textureSize
  | renderState
  | font
  | frameCounter
  | callbacks
  | audioDevices
  | manifest
  | audioLoad
deriving DecidableEq, Repr

/-- Position of a step in the sequence. -/
def Step.idx : Step → Nat
  | .seed => 0
  | .sdlInit => 1
  | .glAttributes => 2
  | .window => 3
  | .imgInit => 4
  | .glContext => 5
  | .glewInit => 6
  | .glVersion => 7
  | .textureSize => 8
  | .renderState => 9
  | .font => 10
  | .frameCounter => 11
  | .callbacks => 12
  | .audioDevices => 13
  | .manifest => 14
  | .audioLoad => 15

/-- First line of `init.cpp` of a step. -/
def Step.firstLine : Step → Nat
  | .seed => 27
  | .sdlInit => 30
  | .glAttributes => 34
  | .window => 40
  | .imgInit => 48
  | .glContext => 55
  | .glewInit => 61
  | .glVersion => 66
  | .textureSize => 70
  | .renderState => 81
  | .font => 93
  | .frameCounter => 95
  | .callbacks => 98
  | .audioDevices => 102
  | .manifest => 108
  | .audioLoad => 112

/-- Last line of `init.cpp` of a step. -/
def Step.lastLine : Step → Nat
  | .seed => 28
  | .sdlInit => 32
  | .glAttributes => 38
  | .window => 45
  | .imgInit => 53
  | .glContext => 59
  | .glewInit => 65
  | .glVersion => 68
  | .textureSize => 79
  | .renderState => 91
  | .font => 93
  | .frameCounter => 96
  | .callbacks => 100
  | .audioDevices => 106
  | .manifest => 110
  | .audioLoad => 113

/-- An event belongs to a step when its line lies in that step's lines. -/
def Event.belongsTo (ev : Event) (j : Step) : Prop :=
  j.firstLine ≤ ev.line ∧ ev.line ≤ j.lastLine

instance (ev : Event) (j : Step) : Decidable (ev.belongsTo j) :=
  inferInstanceAs (Decidable (_ ∧ _))

/-- The error step `k` raises under the outcomes `o`, `none` when the step
passes.  Eight steps build their own `util::Error`; font construction, the
manifest read and the resource load pass on what the collaborator throws. -/
def raisedAt (o : Outcomes) : Step → Option Error
  | .sdlInit =>
    if o.SDL_Init < 0 then some ⟨"SDL initialization: " ++ o.SDL_Init_error⟩ else none
  | .window =>
    if o.SDL_CreateWindow = nullptr then
      some ⟨"SDL window creation: " ++ o.SDL_CreateWindow_error⟩
    else none
  | .imgInit =>
    if Int.land o.IMG_Init IMG_INIT_PNG ≠ IMG_INIT_PNG then
      some ⟨"Failed to init PNG support: " ++ o.IMG_Init_error⟩
    else none
  | .glContext =>
    if o.SDL_GL_CreateContext = nullptr then some ⟨"Failed to create OpenGL context!"⟩
    else none
  | .glewInit => if o.glewInit ≠ GLEW_OK then some ⟨"GLEW initialization failed"⟩ else none
  | .glVersion =>
    if o.GLEW_VERSION_2_1 = false then some ⟨"OpenGL 2.1 not available"⟩ else none
  | .textureSize =>
    if o.max_texture_size < 1024 then
      some ⟨"Maximum supported texture size too small: " ++ toString o.max_texture_size⟩
    else none
  | .font =>
    match o.new_Font with
    | .error e => some e
    | .ok _ => none
  | .audioDevices => if o.get_devices = [] then some ⟨"No audio devices found"⟩ else none
  | .manifest =>
    match o.read_csv_file with
    | .error e => some e
    | .ok _ => none
  | .audioLoad =>
    match o.load_resources with
    | .error e => some e
    | .ok _ => none
  | _ => none

/-- The steps whose error `init` builds itself. -/
def Step.throwsOwn : Step → Bool
  | .sdlInit | .window | .imgInit | .glContext | .glewInit | .glVersion
  | .textureSize | .audioDevices => true
  | _ => false

/-- Reads the failing step off the message of an error `init` built itself. -/
def Step.ofMessage (msg : String) : Option Step :=
  if "SDL initialization: ".data.isPrefixOf msg.data then some .sdlInit
  else if "SDL window creation: ".data.isPrefixOf msg.data then some .window
  else if "Failed to init PNG support: ".data.isPrefixOf msg.data then some .imgInit
  else if msg = "Failed to create OpenGL context!" then some .glContext
  else if msg = "GLEW initialization failed" then some .glewInit
  else if msg = "OpenGL 2.1 not available" then some .glVersion
  else if "Maximum supported texture size too small: ".data.isPrefixOf msg.data then
    some .textureSize
  else if msg = "No audio devices found" then some .audioDevices
  else none

/-- The manifest read. -/
def Call.isManifestRead : Call → Bool
  | .read_csv_file _ => true
  | _ => false

/-- Construction of the audio manager. -/
def Call.isAudioManagerConstruction : Call → Bool
  | .new_AudioManager _ _ _ _ => true
  | _ => false

/-- Outcomes under which every gate passes. -/
def passingOutcomes : Outcomes where
  time := 1400000000
  SDL_Init := 0
  SDL_Init_error := ""
  SDL_CreateWindow := 11
  SDL_CreateWindow_error := ""
  IMG_Init := 2
  IMG_Init_error := ""
  SDL_GL_CreateContext := 12
  SDL_GL_CreateContext_error := ""
  glewInit := 0
  glewGetErrorString := "No error"
  GLEW_VERSION_2_1 := true
  max_texture_size := 1024
  new_Font := .ok 13
  new_FrameCounter := 14
  get_devices := ["default"]
  read_csv_file := .ok [⟨"sounds/5000.opus", ["0", "5000"]⟩]
  new_AudioManager := 15
  load_resources := .ok ()

/-- The engine state of a fresh process. -/
def freshState : State where
  window := 0
  glcontext := 0
  dejavuserif20 := 0
  fpscounter := 0
  audio_manager := 0
  window_size_x := 800
  window_size_y := 600
  on_resize := []
  on_input := []
  on_drawhud := []

/-- The globals after a run of `init` that stopped at step `k`: each global
holds what the steps that ran assigned to it, and nothing is taken back. -/
def stateAfterFailure (o : Outcomes) (s : State) (k : Step) : State where
  window := if Step.window.idx ≤ k.idx then o.SDL_CreateWindow else s.window
  glcontext := if Step.glContext.idx ≤ k.idx then o.SDL_GL_CreateContext else s.glcontext
  dejavuserif20 :=
    if Step.font.idx < k.idx then
      match o.new_Font with
      | .ok font => font
      | .error _ => s.dejavuserif20
    else s.dejavuserif20
  fpscounter := if Step.frameCounter.idx < k.idx then o.new_FrameCounter else s.fpscounter
  audio_manager := if Step.audioLoad.idx ≤ k.idx then o.new_AudioManager else s.audio_manager
  window_size_x := s.window_size_x
  window_size_y := s.window_size_y
  on_resize :=
    if Step.callbacks.idx < k.idx then s.on_resize ++ [Handler.handle_window_resize]
    else s.on_resize
  on_input :=
    if Step.callbacks.idx < k.idx then s.on_input ++ [Handler.input_handler] else s.on_input
  on_drawhud :=
    if Step.callbacks.idx < k.idx then s.on_drawhud ++ [Handler.draw_hud] else s.on_drawhud

/-- The release calls: the two SDL destructors, the three `delete`s, and the
two library shutdowns. -/
def Call.isRelease : Call → Bool
  | .SDL_GL_DeleteContext _ | .SDL_DestroyWindow _ | .delete_FrameCounter _
  | .delete_Font _ | .delete_AudioManager _ | .IMG_Quit | .SDL_Quit => true
  | _ => false

/-- A message contains a text when the text is a contiguous part of it. -/
def containsText (msg text : String) : Prop :=
  text.data <:+: msg.data

instance (msg text : String) : Decidable (containsText msg text) :=
  inferInstanceAs (Decidable (_ <:+: _))

/-! ## Sample inputs -/

/-- Outcomes without any audio device, everything else passing. -/
def noAudioDeviceOutcomes : Outcomes := { passingOutcomes with get_devices := [] }

/-- The asset root of the sample runs. -/
def sampleDir : Dir := ⟨"/usr/share/openage"⟩

/-- Outcomes in which image support grants only the JPG bit. -/
def jpgOnlyOutcomes : Outcomes :=
  { passingOutcomes with
    IMG_Init := IMG_INIT_JPG
    IMG_Init_error := "PNG images are not supported" }

/-- Outcomes in which the loader succeeds and GL 2.1 is not available. -/
def oldGLOutcomes : Outcomes := { passingOutcomes with GLEW_VERSION_2_1 := false }

/-- Outcomes reporting the maximum texture size `m`, everything else passing. -/
def textureOutcomes (m : Int) : Outcomes := { passingOutcomes with max_texture_size := m }

/-- Outcomes in which GL context creation fails and SDL reports why. -/
def glContextFailOutcomes : Outcomes :=
  { passingOutcomes with
    SDL_GL_CreateContext := nullptr
    SDL_GL_CreateContext_error := "Could not create GL context" }

/-- Outcomes in which the GL function loader fails and GLEW reports why. -/
def glewFailOutcomes : Outcomes :=
  { passingOutcomes with glewInit := 1, glewGetErrorString := "Missing GL version" }

/-- Outcomes in which the font constructor throws for a missing file. -/
def fontMissingOutcomes : Outcomes :=
  { passingOutcomes with new_Font := .error ⟨"No such file or directory"⟩ }

/-- Outcomes in which the CSV reader throws for a missing file, with the same
text as the font constructor of `fontMissingOutcomes`. -/
def manifestMissingOutcomes : Outcomes :=
  { passingOutcomes with read_csv_file := .error ⟨"No such file or directory"⟩ }

/-- Outcomes in which the sound manifest cannot be read. -/
def manifestFailOutcomes : Outcomes :=
  { passingOutcomes with read_csv_file := .error ⟨"failed to open sound_list.docx"⟩ }

/-- An engine state after a completed bootstrap. -/
def runningState : State where
  window := 11
  glcontext := 12
  dejavuserif20 := 13
  fpscounter := 14
  audio_manager := 15
  window_size_x := 800
  window_size_y := 600
  on_resize := [Handler.handle_window_resize]
  on_input := [Handler.input_handler]
  on_drawhud := [Handler.draw_hud]

/-! ## Auxiliary facts -/

/-- The lines of an earlier step lie before the lines of a later step. -/
theorem Step.lastLine_lt_firstLine {k j : Step} (h : k.idx < j.idx) :
    k.lastLine < j.firstLine := by
  cases k <;> cases j <;> first | (exact absurd h (by decide)) | decide

/-- An event no later than the last line of step `k` belongs to no later step. -/
theorem Event.not_belongsTo_later {ev : Event} {k : Step} (h : ev.line ≤ k.lastLine)
    {j : Step} (hj : k.idx < j.idx) : ¬ ev.belongsTo j := by
  intro hb
  have := Step.lastLine_lt_firstLine hj
  have := hb.1
  omega

/-- What it means for the gates before step `k` that none of them raises. -/
theorem gates_before {o : Outcomes} {k : Step}
    (hpass : ∀ j : Step, j.idx < k.idx → raisedAt o j = none) :
    (Step.sdlInit.idx < k.idx → ¬ o.SDL_Init < 0) ∧
    (Step.window.idx < k.idx → ¬ o.SDL_CreateWindow = nullptr) ∧
    (Step.imgInit.idx < k.idx → Int.land o.IMG_Init IMG_INIT_PNG = IMG_INIT_PNG) ∧
    (Step.glContext.idx < k.idx → ¬ o.SDL_GL_CreateContext = nullptr) ∧
    (Step.glewInit.idx < k.idx → o.glewInit = GLEW_OK) ∧
    (Step.glVersion.idx < k.idx → o.GLEW_VERSION_2_1 = true) ∧
    (Step.textureSize.idx < k.idx → ¬ o.max_texture_size < 1024) ∧
    (Step.font.idx < k.idx → ∃ font, o.new_Font = .ok font) ∧
    (Step.audioDevices.idx < k.idx → ¬ o.get_devices = []) ∧
    (Step.manifest.idx < k.idx → ∃ sound_files, o.read_csv_file = .ok sound_files) := by
  refine ⟨fun h => ?_, fun h => ?_, fun h => ?_, fun h => ?_, fun h => ?_, fun h => ?_,
    fun h => ?_, fun h => ?_, fun h => ?_, fun h => ?_⟩
  · simpa [raisedAt] using hpass _ h
  · simpa [raisedAt] using hpass _ h
  · simpa [raisedAt] using hpass _ h
  · simpa [raisedAt] using hpass _ h
  · simpa [raisedAt] using hpass _ h
  · simpa [raisedAt] using hpass _ h
  · simpa [raisedAt] using hpass _ h
  · have := hpass _ h
    cases hF : o.new_Font with
    | ok font => exact ⟨font, rfl⟩
    | error e => simp [raisedAt, hF] at this
  · simpa [raisedAt] using hpass _ h
  · have := hpass _ h
    cases hM : o.read_csv_file with
    | ok sf => exact ⟨sf, rfl⟩
    | error e => simp [raisedAt, hM] at this

set_option maxHeartbeats 1000000 in
/-- A run in which the steps before `k` pass and step `k` raises `e`: the
result, the state and the extent of the trace. -/
theorem init_fails (o : Outcomes) (s : State) (d : Dir) (w : String) (k : Step)
    (e : Error) (hpass : ∀ j : Step, j.idx < k.idx → raisedAt o j = none)
    (hfail : raisedAt o k = some e) :
    (init o s d w).result = .error e ∧
    (init o s d w).state = stateAfterFailure o s k ∧
    (∀ ev ∈ (init o s d w).trace, ev.line ≤ k.lastLine) ∧
    (k = .audioDevices → ∀ ev ∈ (init o s d w).trace,
        ev.call.isManifestRead = false ∧ ev.call.isAudioManagerConstruction = false) := by
  obtain ⟨g1, g2, g3, g4, g5, g6, g7, g8, g9, g10⟩ := gates_before hpass
  clear hpass
  cases k <;> simp only [Step.idx, Nat.lt_irrefl, Nat.reduceLT, false_implies, true_implies]
    at g1 g2 g3 g4 g5 g6 g7 g8 g9 g10 <;> simp only [raisedAt] at hfail
  case sdlInit =>
    split at hfail
    next hc =>
      injection hfail with hfail
      subst hfail
      simp [init, g1, g2, g3, g4, g5, g6, g7, g9, hc,
        stateAfterFailure, Step.idx, Step.lastLine, Call.isManifestRead,
        Call.isAudioManagerConstruction]
    next => cases hfail
  case window =>
    split at hfail
    next hc =>
      injection hfail with hfail
      subst hfail
      simp [init, g1, g2, g3, g4, g5, g6, g7, g9, hc,
        stateAfterFailure, Step.idx, Step.lastLine, Call.isManifestRead,
        Call.isAudioManagerConstruction]
    next => cases hfail
  case imgInit =>
    split at hfail
    next hc =>
      injection hfail with hfail
      subst hfail
      simp [init, g1, g2, g3, g4, g5, g6, g7, g9, hc,
        stateAfterFailure, Step.idx, Step.lastLine, Call.isManifestRead,
        Call.isAudioManagerConstruction]
    next => cases hfail
  case glContext =>
    split at hfail
    next hc =>
      injection hfail with hfail
      subst hfail
      simp [init, g1, g2, g3, g4, g5, g6, g7, g9, hc,
        stateAfterFailure, Step.idx, Step.lastLine, Call.isManifestRead,
        Call.isAudioManagerConstruction]
    next => cases hfail
  case glewInit =>
    split at hfail
    next hc =>
      injection hfail with hfail
      subst hfail
      simp [init, g1, g2, g3, g4, g5, g6, g7, g9, hc,
        stateAfterFailure, Step.idx, Step.lastLine, Call.isManifestRead,
        Call.isAudioManagerConstruction]
    next => cases hfail
  case glVersion =>
    split at hfail
    next hc =>
      injection hfail with hfail
      subst hfail
      simp [init, g1, g2, g3, g4, g5, g6, g7, g9, hc,
        stateAfterFailure, Step.idx, Step.lastLine, Call.isManifestRead,
        Call.isAudioManagerConstruction]
    next => cases hfail
  case textureSize =>
    split at hfail
    next hc =>
      injection hfail with hfail
      subst hfail
      simp [init, g1, g2, g3, g4, g5, g6, g7, g9, hc,
        stateAfterFailure, Step.idx, Step.lastLine, Call.isManifestRead,
        Call.isAudioManagerConstruction]
    next => cases hfail
  case font =>
    cases hX : o.new_Font with
    | ok v => simp [hX] at hfail
    | error ex =>
      simp only [hX, Option.some.injEq] at hfail
      subst hfail
      simp [init, g1, g2, g3, g4, g5, g6, g7, g9, hX,
        stateAfterFailure, Step.idx, Step.lastLine, Call.isManifestRead,
        Call.isAudioManagerConstruction]
  case audioDevices =>
    obtain ⟨font, hF⟩ := g8
    split at hfail
    next hc =>
      injection hfail with hfail
      subst hfail
      simp [init, g1, g2, g3, g4, g5, g6, g7, g9, hc, hF,
        stateAfterFailure, Step.idx, Step.lastLine, Call.isManifestRead,
        Call.isAudioManagerConstruction]
    next => cases hfail
  case manifest =>
    obtain ⟨font, hF⟩ := g8
    cases hX : o.read_csv_file with
    | ok v => simp [hX] at hfail
    | error ex =>
      simp only [hX, Option.some.injEq] at hfail
      subst hfail
      simp [init, g1, g2, g3, g4, g5, g6, g7, g9, hX, hF,
        stateAfterFailure, Step.idx, Step.lastLine, Call.isManifestRead,
        Call.isAudioManagerConstruction]
  case audioLoad =>
    obtain ⟨font, hF⟩ := g8
    obtain ⟨sound_files, hM⟩ := g10
    cases hX : o.load_resources with
    | ok v => simp [hX] at hfail
    | error ex =>
      simp only [hX, Option.some.injEq] at hfail
      subst hfail
      simp [init, g1, g2, g3, g4, g5, g6, g7, g9, hX, hF, hM,
        stateAfterFailure, Step.idx, Step.lastLine, Call.isManifestRead,
        Call.isAudioManagerConstruction]
  all_goals cases hfail

/-- The message of an error `init` built at step `k` decodes to `k`. -/
theorem Step.ofMessage_raisedAt {o : Outcomes} {k : Step} {e : Error}
    (hfail : raisedAt o k = some e) (hown : k.throwsOwn = true) :
    Step.ofMessage e.msg = some k := by
  cases k <;> simp only [Step.throwsOwn, Bool.false_eq_true] at hown <;>
    simp only [raisedAt] at hfail <;> split at hfail <;>
    first
    | (injection hfail with hfail
       subst hfail
       simp [Step.ofMessage, String.ext_iff])
    | cases hfail

/-- Past the image-support gate `init` creates the GL context. -/
theorem init_reaches_glContext (o : Outcomes) (s : State) (d : Dir) (w : String)
    (hsdl : ¬ o.SDL_Init < 0) (hwin : o.SDL_CreateWindow ≠ nullptr)
    (himg : Int.land o.IMG_Init IMG_INIT_PNG = IMG_INIT_PNG) :
    ⟨55, .SDL_GL_CreateContext o.SDL_CreateWindow⟩ ∈ (init o s d w).trace := by
  simp only [init, hsdl, hwin, himg, if_false, ne_eq, not_true_eq_false]
  repeat' split
  all_goals simp

/-- Past the texture-size gate `init` sets the swap interval. -/
theorem init_reaches_renderState (o : Outcomes) (s : State) (d : Dir) (w : String)
    (hsdl : ¬ o.SDL_Init < 0) (hwin : o.SDL_CreateWindow ≠ nullptr)
    (himg : Int.land o.IMG_Init IMG_INIT_PNG = IMG_INIT_PNG)
    (hctx : o.SDL_GL_CreateContext ≠ nullptr) (hglew : o.glewInit = GLEW_OK)
    (hver : o.GLEW_VERSION_2_1 = true) (htex : ¬ o.max_texture_size < 1024) :
    ⟨82, .SDL_GL_SetSwapInterval 1⟩ ∈ (init o s d w).trace := by
  simp only [init, hsdl, hwin, himg, hctx, hglew, hver, htex, if_false, ne_eq,
    not_true_eq_false, Bool.not_true, Bool.false_eq_true]
  repeat' split
  all_goals simp

/-! ## The claims -/

/-- C1, as the claim states it: no reading of the returned error tells the
failing step for every failing run.  A font constructor and a CSV reader that
throw the same error make `init` return the same error from two different
steps. -/
theorem init_error_does_not_identify_every_step :
    ¬ ∃ identify : Error → Step,
      ∀ (o : Outcomes) (s : State) (d : Dir) (w : String) (k : Step) (e : Error),
        (∀ j : Step, j.idx < k.idx → raisedAt o j = none) → raisedAt o k = some e →
        ∀ e' : Error, (init o s d w).result = .error e' → identify e' = k := by
  rintro ⟨identify, h⟩
  have hfont := h fontMissingOutcomes freshState sampleDir "openage" .font
    ⟨"No such file or directory"⟩
    (by intro j hj; cases j <;> first | rfl | decide | exact absurd hj (by decide))
    (by decide) ⟨"No such file or directory"⟩ (by decide)
  have hcsv := h manifestMissingOutcomes freshState sampleDir "openage" .manifest
    ⟨"No such file or directory"⟩
    (by intro j hj; cases j <;> first | rfl | decide | exact absurd hj (by decide))
    (by decide) ⟨"No such file or directory"⟩ (by decide)
  rw [hfont] at hcsv
  cases hcsv

/-- C1, amended: when the steps before `k` pass and step `k` raises `e`, `init`
returns exactly `e` and the trace holds no call of a later step.  For the eight
steps whose error `init` builds itself the message names step `k`; for font
construction, the manifest read and the resource load `e` is the collaborator's
own exception, passed on unchanged.  With no audio device the manifest is never
read and the audio manager never constructed. -/
theorem init_aborts_at_first_failing_step (o : Outcomes) (s : State) (d : Dir) (w : String)
    (k : Step) (e : Error) (hpass : ∀ j : Step, j.idx < k.idx → raisedAt o j = none)
    (hfail : raisedAt o k = some e) :
    (init o s d w).result = .error e ∧
    (k.throwsOwn = true → Step.ofMessage e.msg = some k) ∧
    (k.throwsOwn = false →
      (k = .font ∧ o.new_Font = .error e) ∨ (k = .manifest ∧ o.read_csv_file = .error e) ∨
      (k = .audioLoad ∧ o.load_resources = .error e)) ∧
    (∀ ev ∈ (init o s d w).trace, ∀ j : Step, k.idx < j.idx → ¬ ev.belongsTo j) ∧
    (k = .audioDevices → e = ⟨"No audio devices found"⟩ ∧
      ∀ ev ∈ (init o s d w).trace,
        ev.call.isManifestRead = false ∧ ev.call.isAudioManagerConstruction = false) := by
  obtain ⟨hres, -, hline, haudio⟩ := init_fails o s d w k e hpass hfail
  refine ⟨hres, Step.ofMessage_raisedAt hfail, ?_, ?_, ?_⟩
  · intro hown
    cases k <;> simp only [Step.throwsOwn, Bool.true_eq_false] at hown <;>
      simp only [raisedAt] at hfail
    case font =>
      cases hX : o.new_Font with
      | ok v => simp [hX] at hfail
      | error ex =>
        simp only [hX, Option.some.injEq] at hfail
        exact Or.inl ⟨rfl, by rw [hfail]⟩
    case manifest =>
      cases hX : o.read_csv_file with
      | ok v => simp [hX] at hfail
      | error ex =>
        simp only [hX, Option.some.injEq] at hfail
        exact Or.inr (Or.inl ⟨rfl, by rw [hfail]⟩)
    case audioLoad =>
      cases hX : o.load_resources with
      | ok v => simp [hX] at hfail
      | error ex =>
        simp only [hX, Option.some.injEq] at hfail
        exact Or.inr (Or.inr ⟨rfl, by rw [hfail]⟩)
    all_goals cases hfail
  · intro ev hev j hj
    exact Event.not_belongsTo_later (hline ev hev) hj
  · intro hk
    subst hk
    refine ⟨?_, haudio rfl⟩
    simp only [raisedAt] at hfail
    split at hfail
    · injection hfail with hfail
      exact hfail.symm
    · cases hfail

theorem init_aborts_at_first_failing_step_witness :
    (∀ j : Step, j.idx < Step.audioDevices.idx → raisedAt noAudioDeviceOutcomes j = none) ∧
    raisedAt noAudioDeviceOutcomes .audioDevices = some ⟨"No audio devices found"⟩ ∧
    (init noAudioDeviceOutcomes freshState sampleDir "openage").result =
      .error ⟨"No audio devices found"⟩ :=
  have hp : ∀ j : Step, j.idx < Step.audioDevices.idx →
      raisedAt noAudioDeviceOutcomes j = none := by
    intro j hj
    cases j <;> first | rfl | decide | exact absurd hj (by decide)
  have hf : raisedAt noAudioDeviceOutcomes .audioDevices = some ⟨"No audio devices found"⟩ := by
    decide
  ⟨hp, hf, (init_aborts_at_first_failing_step noAudioDeviceOutcomes freshState sampleDir
    "openage" .audioDevices _ hp hf).1⟩

/-- C2: when every gate passes, `init` returns normally; the five handles hold
the newly created resources and each callback list is its previous content
with one handler appended. -/
theorem init_succeeds_and_publishes (o : Outcomes) (s : State) (d : Dir) (w : String)
    (font : Ptr) (sound_files : List sound_file)
    (hsdl : 0 ≤ o.SDL_Init) (hwin : o.SDL_CreateWindow ≠ nullptr)
    (himg : Int.land o.IMG_Init IMG_INIT_PNG = IMG_INIT_PNG)
    (hctx : o.SDL_GL_CreateContext ≠ nullptr) (hglew : o.glewInit = GLEW_OK)
    (hver : o.GLEW_VERSION_2_1 = true) (htex : 1024 ≤ o.max_texture_size)
    (hfont : o.new_Font = .ok font) (hdev : o.get_devices ≠ [])
    (hcsv : o.read_csv_file = .ok sound_files) (hload : o.load_resources = .ok ()) :
    (init o s d w).result = .ok () ∧
    (init o s d w).state.window = o.SDL_CreateWindow ∧
    (init o s d w).state.glcontext = o.SDL_GL_CreateContext ∧
    (init o s d w).state.dejavuserif20 = font ∧
    (init o s d w).state.fpscounter = o.new_FrameCounter ∧
    (init o s d w).state.audio_manager = o.new_AudioManager ∧
    (init o s d w).state.on_resize = s.on_resize ++ [Handler.handle_window_resize] ∧
    (init o s d w).state.on_input = s.on_input ++ [Handler.input_handler] ∧
    (init o s d w).state.on_drawhud = s.on_drawhud ++ [Handler.draw_hud] := by
  have h1 : ¬ o.SDL_Init < 0 := not_lt.mpr hsdl
  have h7 : ¬ o.max_texture_size < 1024 := not_lt.mpr htex
  simp [init, *]

theorem init_succeeds_and_publishes_witness :
    (0 : Int) ≤ passingOutcomes.SDL_Init ∧ passingOutcomes.SDL_CreateWindow ≠ nullptr ∧
    (1024 : Int) ≤ passingOutcomes.max_texture_size ∧ passingOutcomes.get_devices ≠ [] ∧
    (init passingOutcomes freshState sampleDir "openage").result = .ok () ∧
    (init passingOutcomes freshState sampleDir "openage").state.audio_manager = 15 :=
  have h := init_succeeds_and_publishes passingOutcomes freshState sampleDir "openage" 13
    [⟨"sounds/5000.opus", ["0", "5000"]⟩] (by decide) (by decide) (by decide) (by decide)
    (by decide) (by decide) (by decide) rfl (by decide) rfl rfl
  ⟨by decide, by decide, by decide, by decide, h.1, h.2.2.2.2.2.1⟩

/-- C3: with the earlier steps passing, `init` throws the image-support error
and stops whenever the returned mask lacks the requested PNG bit, also for a
non-zero mask such as the JPG bit alone, and goes on to create the GL context
whenever the returned mask contains the requested mask. -/
theorem img_gate_compares_masks (o : Outcomes) (s : State) (d : Dir) (w : String)
    (hsdl : 0 ≤ o.SDL_Init) (hwin : o.SDL_CreateWindow ≠ nullptr) :
    (Int.land o.IMG_Init IMG_INIT_PNG ≠ IMG_INIT_PNG →
      (init o s d w).result = .error ⟨"Failed to init PNG support: " ++ o.IMG_Init_error⟩ ∧
      ∀ ev ∈ (init o s d w).trace, ∀ j : Step, Step.imgInit.idx < j.idx → ¬ ev.belongsTo j) ∧
    (Int.land o.IMG_Init IMG_INIT_PNG = IMG_INIT_PNG →
      ⟨55, .SDL_GL_CreateContext o.SDL_CreateWindow⟩ ∈ (init o s d w).trace) ∧
    (o.IMG_Init = IMG_INIT_JPG → o.IMG_Init ≠ 0 ∧
      (init o s d w).result = .error ⟨"Failed to init PNG support: " ++ o.IMG_Init_error⟩) := by
  have h1 : ¬ o.SDL_Init < 0 := not_lt.mpr hsdl
  refine ⟨fun h => ⟨?_, ?_⟩, fun h => init_reaches_glContext o s d w h1 hwin h, fun h => ?_⟩
  · simp [init, *]
  · intro ev hev j hj
    refine Event.not_belongsTo_later (k := .imgInit) ?_ hj
    revert ev
    simp [init, *, Step.lastLine]
  · have hjpg : Int.land o.IMG_Init IMG_INIT_PNG ≠ IMG_INIT_PNG := by
      rw [h]
      decide
    refine ⟨by rw [h]; decide, ?_⟩
    simp [init, h1, hwin, hjpg]

theorem img_gate_compares_masks_witness :
    (0 : Int) ≤ jpgOnlyOutcomes.SDL_Init ∧ jpgOnlyOutcomes.SDL_CreateWindow ≠ nullptr ∧
    jpgOnlyOutcomes.IMG_Init ≠ 0 ∧
    (init jpgOnlyOutcomes freshState sampleDir "openage").result =
      .error ⟨"Failed to init PNG support: PNG images are not supported"⟩ :=
  ⟨by decide, by decide,
    (img_gate_compares_masks jpgOnlyOutcomes freshState sampleDir "openage"
      (by decide) (by decide)).2.2 rfl⟩

/-- C4: with the earlier steps passing and the loader reporting `GLEW_OK`, a
missing GL 2.1 makes `init` throw the version error, which is not the loader
error, after the loader call and before any call of a later step. -/
theorem gl_version_gate_is_separate (o : Outcomes) (s : State) (d : Dir) (w : String)
    (hsdl : 0 ≤ o.SDL_Init) (hwin : o.SDL_CreateWindow ≠ nullptr)
    (himg : Int.land o.IMG_Init IMG_INIT_PNG = IMG_INIT_PNG)
    (hctx : o.SDL_GL_CreateContext ≠ nullptr) (hglew : o.glewInit = GLEW_OK)
    (hver : o.GLEW_VERSION_2_1 = false) :
    (init o s d w).result = .error ⟨"OpenGL 2.1 not available"⟩ ∧
    (init o s d w).result ≠ .error ⟨"GLEW initialization failed"⟩ ∧
    ⟨62, .glewInit⟩ ∈ (init o s d w).trace ∧
    ∀ ev ∈ (init o s d w).trace, ∀ j : Step, Step.glVersion.idx < j.idx → ¬ ev.belongsTo j := by
  have h1 : ¬ o.SDL_Init < 0 := not_lt.mpr hsdl
  have hres : (init o s d w).result = .error ⟨"OpenGL 2.1 not available"⟩ := by
    simp [init, h1, hwin, himg, hctx, hglew, hver]
  refine ⟨hres, ?_, ?_, ?_⟩
  · rw [hres]
    decide
  · simp [init, h1, hwin, himg, hctx, hglew, hver]
  · intro ev hev j hj
    refine Event.not_belongsTo_later (k := .glVersion) ?_ hj
    revert ev
    simp [init, h1, hwin, himg, hctx, hglew, hver, Step.lastLine]

theorem gl_version_gate_is_separate_witness :
    (0 : Int) ≤ oldGLOutcomes.SDL_Init ∧ oldGLOutcomes.glewInit = GLEW_OK ∧
    oldGLOutcomes.GLEW_VERSION_2_1 = false ∧
    (init oldGLOutcomes freshState sampleDir "openage").result =
      .error ⟨"OpenGL 2.1 not available"⟩ :=
  ⟨by decide, by decide, by decide,
    (gl_version_gate_is_separate oldGLOutcomes freshState sampleDir "openage"
      (by decide) (by decide) (by decide) (by decide) (by decide) (by decide)).1⟩

/-- C5: with the earlier steps passing, `init` throws the texture-size error and
stops at that gate exactly when the reported maximum texture size is below
1024. -/
theorem texture_gate_threshold (o : Outcomes) (s : State) (d : Dir) (w : String)
    (hsdl : 0 ≤ o.SDL_Init) (hwin : o.SDL_CreateWindow ≠ nullptr)
    (himg : Int.land o.IMG_Init IMG_INIT_PNG = IMG_INIT_PNG)
    (hctx : o.SDL_GL_CreateContext ≠ nullptr) (hglew : o.glewInit = GLEW_OK)
    (hver : o.GLEW_VERSION_2_1 = true) :
    ((init o s d w).result = .error
        ⟨"Maximum supported texture size too small: " ++ toString o.max_texture_size⟩ ∧
      ∀ ev ∈ (init o s d w).trace, ∀ j : Step, Step.textureSize.idx < j.idx → ¬ ev.belongsTo j) ↔
    o.max_texture_size < 1024 := by
  have h1 : ¬ o.SDL_Init < 0 := not_lt.mpr hsdl
  constructor
  · rintro ⟨-, hstop⟩
    by_contra hge
    have hmem := init_reaches_renderState o s d w h1 hwin himg hctx hglew hver hge
    exact hstop _ hmem .renderState (by decide) (by decide)
  · intro hlt
    refine ⟨?_, ?_⟩
    · simp [init, h1, hwin, himg, hctx, hglew, hver, hlt]
    · intro ev hev j hj
      refine Event.not_belongsTo_later (k := .textureSize) ?_ hj
      revert ev
      simp [init, h1, hwin, himg, hctx, hglew, hver, hlt, Step.lastLine]

theorem texture_gate_threshold_witness :
    ((0 : Int) ≤ (textureOutcomes 1023).SDL_Init ∧
      (textureOutcomes 1023).max_texture_size < 1024 ∧
      (init (textureOutcomes 1023) freshState sampleDir "openage").result =
        .error ⟨"Maximum supported texture size too small: 1023"⟩) ∧
    ((0 : Int) ≤ (textureOutcomes 1024).SDL_Init ∧
      ¬ (textureOutcomes 1024).max_texture_size < 1024 ∧
      ¬ ((init (textureOutcomes 1024) freshState sampleDir "openage").result = .error
            ⟨"Maximum supported texture size too small: " ++
              toString (textureOutcomes 1024).max_texture_size⟩ ∧
          ∀ ev ∈ (init (textureOutcomes 1024) freshState sampleDir "openage").trace,
            ∀ j : Step, Step.textureSize.idx < j.idx → ¬ ev.belongsTo j)) :=
  ⟨⟨by decide, by decide,
      ((texture_gate_threshold (textureOutcomes 1023) freshState sampleDir "openage"
        (by decide) (by decide) (by decide) (by decide) (by decide) (by decide)).2
        (by decide)).1⟩,
    ⟨by decide, by decide,
      fun h => absurd ((texture_gate_threshold (textureOutcomes 1024) freshState sampleDir
        "openage" (by decide) (by decide) (by decide) (by decide) (by decide)
        (by decide)).1 h) (by decide)⟩⟩

/-- C6: `destroy` returns normally and makes exactly six release calls, in
this order: GL context, window, frame counter, default font, `IMG_Quit`,
`SDL_Quit`. -/
theorem destroy_releases_in_order (s : State) :
    (destroy s).result = .ok () ∧
    (destroy s).trace.map Event.call =
      [.SDL_GL_DeleteContext s.glcontext, .SDL_DestroyWindow s.window,
       .delete_FrameCounter s.fpscounter, .delete_Font s.dejavuserif20,
       .IMG_Quit, .SDL_Quit] ∧
    (destroy s).trace.map Event.line = [122, 123, 124, 125, 126, 127] :=
  ⟨rfl, rfl, rfl⟩

/-- C7: `destroy` leaves the audio manager handle and the three callback lists
as they were and never deletes the audio manager; `init` followed by `destroy`
makes each of the six release calls exactly once, on the handles `init`
created, and the audio manager and the three registrations of `init` remain. -/
theorem destroy_keeps_audio_and_callbacks (s' : State) (o : Outcomes) (s : State) (d : Dir)
    (w : String) (font : Ptr) (sound_files : List sound_file)
    (hsdl : 0 ≤ o.SDL_Init) (hwin : o.SDL_CreateWindow ≠ nullptr)
    (himg : Int.land o.IMG_Init IMG_INIT_PNG = IMG_INIT_PNG)
    (hctx : o.SDL_GL_CreateContext ≠ nullptr) (hglew : o.glewInit = GLEW_OK)
    (hver : o.GLEW_VERSION_2_1 = true) (htex : 1024 ≤ o.max_texture_size)
    (hfont : o.new_Font = .ok font) (hdev : o.get_devices ≠ [])
    (hcsv : o.read_csv_file = .ok sound_files) (hload : o.load_resources = .ok ()) :
    ((destroy s').state.audio_manager = s'.audio_manager ∧
      (destroy s').state.on_resize = s'.on_resize ∧
      (destroy s').state.on_input = s'.on_input ∧
      (destroy s').state.on_drawhud = s'.on_drawhud ∧
      ∀ ev ∈ (destroy s').trace, ∀ p : Ptr, ev.call ≠ .delete_AudioManager p) ∧
    ((init o s d w).result = .ok () ∧
      (((init o s d w).trace ++ (destroy (init o s d w).state).trace).map Event.call).filter
          Call.isRelease =
        [.SDL_GL_DeleteContext o.SDL_GL_CreateContext, .SDL_DestroyWindow o.SDL_CreateWindow,
         .delete_FrameCounter o.new_FrameCounter, .delete_Font font, .IMG_Quit, .SDL_Quit] ∧
      (destroy (init o s d w).state).state.audio_manager = o.new_AudioManager ∧
      (destroy (init o s d w).state).state.on_resize =
        s.on_resize ++ [Handler.handle_window_resize] ∧
      (destroy (init o s d w).state).state.on_input = s.on_input ++ [Handler.input_handler] ∧
      (destroy (init o s d w).state).state.on_drawhud = s.on_drawhud ++ [Handler.draw_hud]) := by
  have h1 : ¬ o.SDL_Init < 0 := not_lt.mpr hsdl
  have h7 : ¬ o.max_texture_size < 1024 := not_lt.mpr htex
  refine ⟨⟨rfl, rfl, rfl, rfl, ?_⟩, ?_⟩
  · simp [destroy]
  · simp [init, destroy, Call.isRelease, h1, hwin, himg, hctx, hglew, hver, h7, hfont, hdev,
      hcsv, hload]

theorem destroy_keeps_audio_and_callbacks_witness :
    (0 : Int) ≤ passingOutcomes.SDL_Init ∧ passingOutcomes.get_devices ≠ [] ∧
    (destroy runningState).state.audio_manager = 15 ∧
    (destroy (init passingOutcomes freshState sampleDir "openage").state).state.audio_manager
      = 15 :=
  have h := destroy_keeps_audio_and_callbacks runningState passingOutcomes freshState sampleDir
    "openage" 13 [⟨"sounds/5000.opus", ["0", "5000"]⟩] (by decide) (by decide) (by decide)
    (by decide) (by decide) (by decide) (by decide) rfl (by decide) rfl rfl
  ⟨by decide, by decide, h.1.1, h.2.2.2.1⟩

/-- C8: when GL context creation fails, and when the GL function loader fails,
the message of the error `init` throws is a fixed text that does not contain
the platform's error text for that call. -/
theorem gl_errors_omit_platform_text :
    (init glContextFailOutcomes freshState sampleDir "openage").result =
      .error ⟨"Failed to create OpenGL context!"⟩ ∧
    ¬ containsText "Failed to create OpenGL context!"
      glContextFailOutcomes.SDL_GL_CreateContext_error ∧
    (init glewFailOutcomes freshState sampleDir "openage").result =
      .error ⟨"GLEW initialization failed"⟩ ∧
    ¬ containsText "GLEW initialization failed" glewFailOutcomes.glewGetErrorString := by
  refine ⟨by decide, by decide, by decide, by decide⟩

/-- C9, as the claim states it: after some failed `init` the process-wide state
is not the state before the call. -/
theorem failed_init_changes_state :
    ¬ ∀ (o : Outcomes) (s : State) (d : Dir) (w : String) (e : Error),
      (init o s d w).result = .error e → (init o s d w).state = s := by
  intro h
  have h' := h manifestFailOutcomes freshState sampleDir "openage"
    ⟨"failed to open sound_list.docx"⟩ (by decide)
  revert h'
  decide

/-- C9, amended: after a failure at step `k` every global holds what the steps
that ran assigned to it, nothing is rolled back, and the state is the one
before the call when the failing step is `SDL_Init`. -/
theorem failed_init_keeps_assignments (o : Outcomes) (s : State) (d : Dir) (w : String)
    (k : Step) (e : Error) (hpass : ∀ j : Step, j.idx < k.idx → raisedAt o j = none)
    (hfail : raisedAt o k = some e) :
    (init o s d w).result = .error e ∧
    (init o s d w).state = stateAfterFailure o s k ∧
    (k = .sdlInit → (init o s d w).state = s) := by
  obtain ⟨hres, hstate, -, -⟩ := init_fails o s d w k e hpass hfail
  refine ⟨hres, hstate, ?_⟩
  intro hk
  subst hk
  rw [hstate]
  simp [stateAfterFailure, Step.idx]

theorem failed_init_keeps_assignments_witness :
    (∀ j : Step, j.idx < Step.manifest.idx → raisedAt manifestFailOutcomes j = none) ∧
    raisedAt manifestFailOutcomes .manifest = some ⟨"failed to open sound_list.docx"⟩ ∧
    (init manifestFailOutcomes freshState sampleDir "openage").state =
      { runningState with audio_manager := 0 } :=
  have hp : ∀ j : Step, j.idx < Step.manifest.idx →
      raisedAt manifestFailOutcomes j = none := by
    intro j hj
    cases j <;> first | rfl | decide | exact absurd hj (by decide)
  have hf : raisedAt manifestFailOutcomes .manifest =
      some ⟨"failed to open sound_list.docx"⟩ := by decide
  ⟨hp, hf, (failed_init_keeps_assignments manifestFailOutcomes freshState sampleDir "openage"
    .manifest _ hp hf).2.1.trans (by decide)⟩

/-- C10, as the claim states it: it is not so that `destroy` makes no
image-codec quit call. -/
theorem destroy_calls_IMG_Quit :
    ¬ ∀ s : State, ∀ ev ∈ (destroy s).trace, ev.call ≠ .IMG_Quit := by
  intro h
  exact h freshState ⟨126, .IMG_Quit⟩ (by decide) rfl

/-- C10, amended: `destroy` calls `IMG_Quit` exactly once, after the four
handle releases and before `SDL_Quit`, while it makes no release of the audio
manager and leaves the three callback lists as they were. -/
theorem destroy_quits_image_support (s : State) :
    ((destroy s).trace.map Event.call).count .IMG_Quit = 1 ∧
    (destroy s).trace.get? 4 = some ⟨126, .IMG_Quit⟩ ∧
    (destroy s).trace.get? 5 = some ⟨127, .SDL_Quit⟩ ∧
    (∀ ev ∈ (destroy s).trace, ∀ p : Ptr, ev.call ≠ .delete_AudioManager p) ∧
    (destroy s).state.on_resize = s.on_resize ∧
    (destroy s).state.on_input = s.on_input ∧
    (destroy s).state.on_drawhud = s.on_drawhud := by
  refine ⟨?_, rfl, rfl, ?_, rfl, rfl, rfl⟩
  · simp [destroy]
  · simp [destroy]

end openage
